import Mathlib

/-!
Shallow embedding of the MediaConduit Anthropic provider plugin.

The embedding covers the two components of the repository:

* the API client (AnthropicAPIClient): construction of the outbound chat
  request from a model id, a prompt and the caller options, and extraction
  of the text result from the remote response;
* the provider (AnthropicProvider): the in-memory model registry
  (discoveredModels), its three population routines
  (initializeKnownClaudeModels, discoverModels, initializeFallbackModels),
  and the handle-creation entry points (createTextToTextModel, getModel).

The repository holds two versions of the provider class.  They share every
method relevant here except the constructor and the population routines:
the first version seeds the registry synchronously from a known-model list,
the second starts an asynchronous background discovery.  Both constructors
are embedded.

Network effects are made explicit: functions that in the source would
perform an HTTP round trip take the outcome of that round trip as an
argument, and the entry points report the number of outbound HTTP requests
they issue themselves, so that claims of the form "no network call is
made" are statable.
-/

/-- Message roles accepted by the chat request, from the AnthropicMessage
interface of the API client. -/
inductive Role where
  | system
  | user
  | assistant
  deriving DecidableEq, Repr

/-- One chat message: a role together with its string content. -/
structure AnthropicMessage where
  role : Role
  content : String
  deriving DecidableEq, Repr

/-- Options of AnthropicAPIClient.generateText.  Every field of the source
options object is optional; the source type has exactly these four fields
(temperature, maxTokens, topP, systemPrompt) and no stop-sequences field.
Numeric fields are rationals, standing for the JavaScript number type. -/
structure GenerateOptions where
  temperature : Option Rat
  maxTokens : Option Nat
  topP : Option Rat
  systemPrompt : Option String
  deriving DecidableEq, Repr

/-- Message-list construction of generateText: the source pushes a
system-role message only when options.systemPrompt is truthy (a JavaScript
string is truthy exactly when it is non-empty), then pushes one user-role
message holding the prompt. -/
def generateTextMessages (prompt : String) (options : GenerateOptions) :
    List AnthropicMessage :=
  (match options.systemPrompt with
    | some s => if s = "" then [] else [⟨Role.system, s⟩]
    | none => []) ++ [⟨Role.user, prompt⟩]

/-- Outbound chat request shape (AnthropicChatRequest).  Fields that the
source declares optional are Option-valued; a none field is absent from
the serialized request body. -/
structure AnthropicChatRequest where
  model : String
  max_tokens : Nat
  messages : List AnthropicMessage
  temperature : Option Rat
  top_p : Option Rat
  stop_sequences : Option (List String)
  system : Option String
  stream : Option Bool
  deriving DecidableEq, Repr

/-- Request object built by generateText: model and messages as given,
max_tokens from options.maxTokens with the nullish default 1024,
temperature and top_p copied from the options, and no other field set
(the request literal in the source mentions only these five keys). -/
def generateTextRequest (model prompt : String) (options : GenerateOptions) :
    AnthropicChatRequest :=
  { model := model
    max_tokens := (match options.maxTokens with | some n => n | none => 1024)
    messages := generateTextMessages prompt options
    temperature := options.temperature
    top_p := options.topP
    stop_sequences := none
    system := none
    stream := none }

/-- JSON values, used to state what the serialized request body holds. -/
inductive JsonValue where
  | str (s : String)
  | num (q : Rat)
  | bool (b : Bool)
  | arr (elems : List JsonValue)
  | obj (fields : List (String × JsonValue))

/-- Wire name of a role, as serialized into the request body. -/
def roleString : Role → String
  | Role.system => "system"
  | Role.user => "user"
  | Role.assistant => "assistant"

/-- Serialization of one message into a JSON object. -/
def serializeMessage (m : AnthropicMessage) : JsonValue :=
  JsonValue.obj [("role", JsonValue.str (roleString m.role)),
                 ("content", JsonValue.str m.content)]

/-- Serialized body of a chat request: JSON serialization keeps the
required keys and drops every Option-valued key that is none (a JavaScript
object key holding undefined is omitted by JSON serialization). -/
def requestBodyFields (r : AnthropicChatRequest) : List (String × JsonValue) :=
  [("model", JsonValue.str r.model),
   ("max_tokens", JsonValue.num (r.max_tokens : Rat)),
   ("messages", JsonValue.arr (r.messages.map serializeMessage))] ++
  (match r.temperature with
    | some q => [("temperature", JsonValue.num q)]
    | none => []) ++
  (match r.top_p with
    | some q => [("top_p", JsonValue.num q)]
    | none => []) ++
  (match r.stop_sequences with
    | some l => [("stop_sequences", JsonValue.arr (l.map JsonValue.str))]
    | none => []) ++
  (match r.system with
    | some s => [("system", JsonValue.str s)]
    | none => []) ++
  (match r.stream with
    | some b => [("stream", JsonValue.bool b)]
    | none => [])

/-- Lookup of a key in a serialized body; some value exactly when the key
is present. -/
def lookupField (fields : List (String × JsonValue)) (k : String) :
    Option JsonValue :=
  (fields.find? (fun p => p.1 == k)).map (fun p => p.2)

/-- Serialized body of the request that generateText sends. -/
def generateTextWireBody (model prompt : String) (options : GenerateOptions) :
    List (String × JsonValue) :=
  requestBodyFields (generateTextRequest model prompt options)

/-- One segment of the response content array. -/
structure ContentPart where
  type : String
  text : String
  deriving DecidableEq, Repr

/-- Runtime shape of the chat response body.  The content field is
Option-valued because the source guards against a payload in which the
content array is absent. -/
structure AnthropicChatResponse where
  id : String
  type : String
  role : String
  content : Option (List ContentPart)
  model : String
  stop_reason : Option String
  stop_sequence : Option String
  deriving DecidableEq, Repr

/-- Errors thrown by the API client; each constructor stands for one
Error construction site in the source. -/
inductive AnthropicClientError where
  /-- thrown by generateText when the response carries no content. -/
  | emptyResponse
  /-- thrown by getAvailableModels when the listing request fails. -/
  | fetchModelsFailed (message : String)
  deriving DecidableEq, Repr

/-- Result extraction of generateText: the source throws the
empty-response error when the response data is absent, its content field
is absent, or the content array has length zero; otherwise it returns the
concatenation of the text fields of all segments, in order, with no
separator. -/
def generateTextExtract (data : Option AnthropicChatResponse) :
    Except AnthropicClientError String :=
  match data with
  | none => Except.error AnthropicClientError.emptyResponse
  | some d =>
    match d.content with
    | none => Except.error AnthropicClientError.emptyResponse
    | some parts =>
      if parts.length = 0 then Except.error AnthropicClientError.emptyResponse
      else Except.ok (String.join (parts.map (fun p => p.text)))

/-- Capability tags of the hosting system.  The provider only ever uses
TEXT_TO_TEXT; the remaining tags of the host enum are collapsed into one
parametrized constructor, which is enough because the source only compares
capabilities for equality and membership. -/
inductive MediaCapability where
  | TEXT_TO_TEXT
  | otherCapability (tag : String)
  deriving DecidableEq, Repr

/-- Schema of one generation parameter, as advertised in a model
descriptor. -/
structure ParamSchema where
  type : String
  min : Rat
  max : Rat
  default : Rat
  deriving DecidableEq, Repr

/-- Parameter block of a model descriptor; the source writes the same
three-entry literal in all three population routines. -/
structure ModelParameters where
  temperature : ParamSchema
  max_tokens : ParamSchema
  top_p : ParamSchema
  deriving DecidableEq, Repr

/-- Parameter literal shared by the three population routines. -/
def claudeModelParameters : ModelParameters :=
  { temperature := { type := "number", min := 0, max := 1, default := 7 / 10 }
    max_tokens := { type := "number", min := 1, max := 100000, default := 1024 }
    top_p := { type := "number", min := 0, max := 1, default := 1 } }

/-- Model descriptor stored in the registry (ProviderModel). -/
structure ProviderModel where
  id : String
  name : String
  description : String
  capabilities : List MediaCapability
  parameters : ModelParameters
  deriving DecidableEq, Repr

/-- Registry of the provider: the discoveredModels JavaScript Map, as an
insertion-ordered association list with unique keys. -/
abbrev Registry := List (String × ProviderModel)

/-- Map.set semantics: overwrite in place when the key is present, append
otherwise. -/
def mapSet (m : Registry) (k : String) (v : ProviderModel) : Registry :=
  if m.any (fun p => p.1 = k) then
    m.map (fun p => if p.1 = k then (k, v) else p)
  else m ++ [(k, v)]

/-- Map.has semantics. -/
def mapHas (m : Registry) (k : String) : Bool :=
  m.any (fun p => p.1 = k)

/-- Map.keys semantics, in insertion order. -/
def mapKeys (m : Registry) : List String :=
  m.map (fun p => p.1)

/-- Map.values semantics, in insertion order. -/
def mapValues (m : Registry) : List ProviderModel :=
  m.map (fun p => p.2)

/-- Map.get semantics: the value stored under the key, if any. -/
def mapGet (m : Registry) (k : String) : Option ProviderModel :=
  (m.find? (fun p => p.1 == k)).map (fun p => p.2)

/-- Friendly-name table of getModelDisplayName. -/
def modelNameMap (modelId : String) : Option String :=
  match modelId with
  | "claude-3-5-sonnet-latest" => some "Claude 3.5 Sonnet (Latest)"
  | "claude-3-5-haiku-latest" => some "Claude 3.5 Haiku (Latest)"
  | "claude-3-opus-latest" => some "Claude 3 Opus (Latest)"
  | "claude-3-5-sonnet-20241022" => some "Claude 3.5 Sonnet (Oct 2024)"
  | "claude-3-5-sonnet-20240620" => some "Claude 3.5 Sonnet (Jun 2024)"
  | "claude-3-5-haiku-20241022" => some "Claude 3.5 Haiku (Oct 2024)"
  | "claude-3-opus-20240229" => some "Claude 3 Opus"
  | "claude-3-sonnet-20240229" => some "Claude 3 Sonnet"
  | "claude-3-haiku-20240307" => some "Claude 3 Haiku"
  | "claude-2.1" => some "Claude 2.1"
  | "claude-2.0" => some "Claude 2.0"
  | _ => none

/-- Word characters of the JavaScript regular-expression class used by the
title-casing fallback. -/
def isWordChar (c : Char) : Bool :=
  c.isAlphanum || c = '_'

/-- Title-casing pass of the display-name fallback: uppercase every
character that starts a word, i.e. whose predecessor is not a word
character; the boolean argument says whether the previous character was a
word character. -/
def titleCaseChars : Bool → List Char → List Char
  | _, [] => []
  | prevWord, c :: rest =>
    (if prevWord then c else c.toUpper) :: titleCaseChars (isWordChar c) rest

/-- Display-name derivation of getModelDisplayName: the friendly-name
table when the id is listed, otherwise hyphen-to-space followed by
title-casing of every word start. -/
def getModelDisplayName (modelId : String) : String :=
  match modelNameMap modelId with
  | some n => n
  | none =>
    String.mk (titleCaseChars false
      (modelId.data.map (fun c => if c = '-' then ' ' else c)))

/-- Known-model list of initializeKnownClaudeModels, in source order. -/
def knownModels : List String :=
  ["claude-3-5-sonnet-latest",
   "claude-3-5-haiku-latest",
   "claude-3-opus-latest",
   "claude-3-5-sonnet-20241022",
   "claude-3-5-sonnet-20240620",
   "claude-3-5-haiku-20241022",
   "claude-3-opus-20240229",
   "claude-3-sonnet-20240229",
   "claude-3-haiku-20240307",
   "claude-2.1",
   "claude-2.0"]

/-- Descriptor built for one known model id. -/
def knownProviderModel (id : String) : ProviderModel :=
  { id := id
    name := getModelDisplayName id
    description := "Anthropic Claude model: " ++ id
    capabilities := [MediaCapability.TEXT_TO_TEXT]
    parameters := claudeModelParameters }

/-- Known-model seeding routine of the first provider version: one
Map.set per known id, on top of the current registry. -/
def initializeKnownClaudeModels (m : Registry) : Registry :=
  knownModels.foldl (fun acc id => mapSet acc id (knownProviderModel id)) m

/-- Fallback list of initializeFallbackModels, in source order. -/
def fallbackModels : List String :=
  ["claude-3-5-sonnet-latest",
   "claude-3-5-haiku-latest",
   "claude-3-opus-latest"]

/-- Descriptor built for one fallback model id. -/
def fallbackProviderModel (id : String) : ProviderModel :=
  { id := id
    name := getModelDisplayName id
    description := "Anthropic Claude model: " ++ id ++ " (fallback)"
    capabilities := [MediaCapability.TEXT_TO_TEXT]
    parameters := claudeModelParameters }

/-- Fallback population routine of the second provider version: one
Map.set per fallback id, on top of the current registry. -/
def initializeFallbackModels (m : Registry) : Registry :=
  fallbackModels.foldl (fun acc id => mapSet acc id (fallbackProviderModel id)) m

/-- One entry of the remote model listing (AnthropicModel). -/
structure AnthropicModel where
  id : String
  display_name : Option String
  created_at : Option String
  type : String
  deriving DecidableEq, Repr

/-- Name chosen for a discovered model: the API label when truthy (a
non-empty string), otherwise the derived display name. -/
def discoveredName (m : AnthropicModel) : String :=
  match m.display_name with
  | some s => if s = "" then getModelDisplayName m.id else s
  | none => getModelDisplayName m.id

/-- Description label of a discovered model: the API label when truthy,
otherwise the id. -/
def discoveredLabel (m : AnthropicModel) : String :=
  match m.display_name with
  | some s => if s = "" then m.id else s
  | none => m.id

/-- Descriptor built for one discovered model. -/
def discoveredProviderModel (m : AnthropicModel) : ProviderModel :=
  { id := m.id
    name := discoveredName m
    description := "Anthropic Claude model: " ++ discoveredLabel m
    capabilities := [MediaCapability.TEXT_TO_TEXT]
    parameters := claudeModelParameters }

/-- Provider state: whether an API client is configured, and the registry.
The client object itself carries no state the claims depend on, so only
its presence is tracked. -/
structure AnthropicProviderState where
  hasApiClient : Bool
  discoveredModels : Registry
  deriving DecidableEq, Repr

/-- Outcome of the remote listing call consumed by discoverModels: a
thrown transport error, or a response whose data array may be absent at
runtime. -/
abbrev ListingOutcome := Except String (Option (List AnthropicModel))

/-- Discovery routine of the second provider version.  It returns
immediately when no client is configured; on a thrown listing error, an
absent array or an empty array it populates the fallback list; otherwise
it stores one descriptor per listed model with Map.set.  The routine is a
total function into provider states: no branch raises. -/
def discoverModels (st : AnthropicProviderState) (listing : ListingOutcome) :
    AnthropicProviderState :=
  if !st.hasApiClient then st
  else
    match listing with
    | Except.error _ =>
      { st with discoveredModels := initializeFallbackModels st.discoveredModels }
    | Except.ok none =>
      { st with discoveredModels := initializeFallbackModels st.discoveredModels }
    | Except.ok (some models) =>
      if models.length = 0 then
        { st with discoveredModels := initializeFallbackModels st.discoveredModels }
      else
        { st with discoveredModels :=
            (models.foldl
              (fun acc m => mapSet acc m.id (discoveredProviderModel m))
              st.discoveredModels) }

/-- Constructor of the first provider version: when an API key is present
in the environment it creates the client and seeds the registry
synchronously from the known-model list, with no network access; with no
key the provider stays unconfigured with an empty registry. -/
def constructorKnownModels (apiKeyPresent : Bool) : AnthropicProviderState :=
  if apiKeyPresent then
    { hasApiClient := true, discoveredModels := initializeKnownClaudeModels [] }
  else
    { hasApiClient := false, discoveredModels := [] }

/-- Constructor of the second provider version: when an API key is present
it creates the client and starts discoverModels in the background without
awaiting it, so the state right after the constructor returns, before any
network response has arrived, still has an empty registry. -/
def constructorBackgroundDiscovery (apiKeyPresent : Bool) : AnthropicProviderState :=
  if apiKeyPresent then
    { hasApiClient := true, discoveredModels := [] }
  else
    { hasApiClient := false, discoveredModels := [] }

/-- Membership test supportsTextToTextModel: Map.has on the registry. -/
def supportsTextToTextModel (st : AnthropicProviderState) (modelId : String) : Bool :=
  mapHas st.discoveredModels modelId

/-- Errors thrown by the provider entry points; each constructor stands
for one Error construction site in the source. -/
inductive ProviderError where
  /-- thrown by createTextToTextModel when no client is configured. -/
  | notConfigured
  /-- thrown by getModel when no client is configured; its message also
  names the environment variable and configure(). -/
  | notConfiguredGetModel
  /-- thrown by createTextToTextModel when the id is not in the registry. -/
  | unsupportedModel (modelId : String)
  deriving DecidableEq, Repr

/-- Generation handle (AnthropicTextToTextModel) bound to a model id. -/
structure AnthropicTextToTextModel where
  modelId : String
  deriving DecidableEq, Repr

/-- Result of a provider entry point: the returned value or thrown error,
together with the number of outbound HTTP requests the call issued. -/
structure CallResult (α : Type) where
  result : Except ProviderError α
  networkRequests : Nat
  deriving Repr

/-- Entry point createTextToTextModel: it throws when no client is
configured, then throws when the registry does not hold the id, and
otherwise returns a new handle.  No branch performs an HTTP request; the
handle only uses the client on later generation calls. -/
def createTextToTextModel (st : AnthropicProviderState) (modelId : String) :
    CallResult AnthropicTextToTextModel :=
  if !st.hasApiClient then
    { result := Except.error ProviderError.notConfigured, networkRequests := 0 }
  else if !supportsTextToTextModel st modelId then
    { result := Except.error (ProviderError.unsupportedModel modelId),
      networkRequests := 0 }
  else
    { result := Except.ok { modelId := modelId }, networkRequests := 0 }

/-- Entry point getModel: it throws its own configuration error when no
client is configured and otherwise defers to createTextToTextModel. -/
def getModel (st : AnthropicProviderState) (modelId : String) :
    CallResult AnthropicTextToTextModel :=
  if !st.hasApiClient then
    { result := Except.error ProviderError.notConfiguredGetModel,
      networkRequests := 0 }
  else
    createTextToTextModel st modelId

/-- Listing getSupportedTextToTextModels: the registry keys, filtered by
whether the stored descriptor advertises the TEXT_TO_TEXT capability. -/
def getSupportedTextToTextModels (st : AnthropicProviderState) : List String :=
  (mapKeys st.discoveredModels).filter (fun id =>
    match mapGet st.discoveredModels id with
    | some pm => pm.capabilities.contains MediaCapability.TEXT_TO_TEXT
    | none => false)

/-- Listing getModelsForCapability: all stored descriptors for
TEXT_TO_TEXT, the empty list for every other capability. -/
def getModelsForCapability (st : AnthropicProviderState)
    (capability : MediaCapability) : List ProviderModel :=
  if capability = MediaCapability.TEXT_TO_TEXT then mapValues st.discoveredModels
  else []

/-- Uniformity invariant of the registry: every stored entry sits under a
key equal to the id field of its descriptor and advertises exactly the
TEXT_TO_TEXT capability. -/
def RegistryUniform (m : Registry) : Prop :=
  ∀ p ∈ m, p.2.id = p.1 ∧ p.2.capabilities = [MediaCapability.TEXT_TO_TEXT]

/-- Example prior registry holding one entry whose key is absent from the
example listing below; used to exercise discovery on a non-empty prior
state. -/
def staleRegistryExample : Registry :=
  [("claude-old", knownProviderModel "claude-old")]

/-- Example configured provider state with the stale one-entry registry. -/
def staleStateExample : AnthropicProviderState :=
  { hasApiClient := true, discoveredModels := staleRegistryExample }

/-- Example provider state with no configured client whose registry
nevertheless holds a known model, to exercise the order of the
configuration and membership checks. -/
def unconfiguredSeededExample : AnthropicProviderState :=
  { hasApiClient := false
    discoveredModels := [("claude-3-5-sonnet-latest",
      knownProviderModel "claude-3-5-sonnet-latest")] }

/-- Example non-empty remote listing holding one model id that is not in
the stale registry above. -/
def discoveryListingExample : List AnthropicModel :=
  [{ id := "m-new", display_name := none, created_at := none, type := "model" }]

/-- Example chat response whose content carries the two segments ab and
cd. -/
def abcdResponseExample : AnthropicChatResponse :=
  { id := "msg-1"
    type := "message"
    role := "assistant"
    content := some [{ type := "text", text := "ab" },
                     { type := "text", text := "cd" }]
    model := "claude-3-5-sonnet-latest"
    stop_reason := none
    stop_sequence := none }

/-- Helper: Map.has agrees with membership in the key list. -/
theorem mapHas_iff_mem (m : Registry) (k : String) :
    mapHas m k = true ↔ k ∈ mapKeys m := by
  simp [mapHas, mapKeys, List.any_eq_true, List.mem_map]

/-- Helper: keys after Map.set are the old keys plus possibly the new
key. -/
theorem mem_mapKeys_mapSet (m : Registry) (k k2 : String) (v : ProviderModel) :
    k2 ∈ mapKeys (mapSet m k v) ↔ k2 ∈ mapKeys m ∨ k2 = k := by
  unfold mapSet
  by_cases h : m.any (fun p => p.1 = k) = true
  · rw [if_pos h]
    have hk : k ∈ mapKeys m := (mapHas_iff_mem m k).mp h
    have hkeys : mapKeys (m.map (fun p => if p.1 = k then (k, v) else p))
        = mapKeys m := by
      unfold mapKeys
      rw [List.map_map]
      apply List.map_congr_left
      intro p _
      by_cases hpk : p.1 = k
      · simp [hpk]
      · simp [hpk]
    rw [hkeys]
    constructor
    · exact Or.inl
    · rintro (h2 | rfl)
      · exact h2
      · exact hk
  · rw [if_neg h]
    unfold mapKeys
    rw [List.map_append]
    simp

/-- Helper: keys reachable after folding Map.set over a list of entries
with given key and value functions. -/
theorem mem_mapKeys_foldl {α : Type} (key : α → String) (val : α → ProviderModel)
    (l : List α) (acc : Registry) (k : String) :
    k ∈ mapKeys (l.foldl (fun a x => mapSet a (key x) (val x)) acc)
      ↔ k ∈ mapKeys acc ∨ k ∈ l.map key := by
  induction l generalizing acc with
  | nil => simp
  | cons x rest ih =>
    rw [List.foldl_cons, ih, mem_mapKeys_mapSet]
    simp only [List.map_cons, List.mem_cons]
    tauto

/-- Helper: keys after the known-model seeding routine. -/
theorem mem_mapKeys_initializeKnownClaudeModels (m : Registry) (k : String) :
    k ∈ mapKeys (initializeKnownClaudeModels m) ↔ k ∈ mapKeys m ∨ k ∈ knownModels := by
  have h := mem_mapKeys_foldl (fun i : String => i) knownProviderModel knownModels m k
  simp only [List.map_id'] at h
  exact h

/-- Helper: keys after the fallback population routine. -/
theorem mem_mapKeys_initializeFallbackModels (m : Registry) (k : String) :
    k ∈ mapKeys (initializeFallbackModels m) ↔ k ∈ mapKeys m ∨ k ∈ fallbackModels := by
  have h := mem_mapKeys_foldl (fun i : String => i) fallbackProviderModel fallbackModels m k
  simp only [List.map_id'] at h
  exact h

/-- Helper: keys after storing one descriptor per listed model. -/
theorem mem_mapKeys_discoveryFold (models : List AnthropicModel) (acc : Registry)
    (k : String) :
    k ∈ mapKeys (models.foldl
        (fun a m => mapSet a m.id (discoveredProviderModel m)) acc)
      ↔ k ∈ mapKeys acc ∨ k ∈ models.map AnthropicModel.id :=
  mem_mapKeys_foldl AnthropicModel.id discoveredProviderModel models acc k

/-- Helper: a registry with a reachable key is not empty. -/
theorem registry_ne_nil_of_mem_keys {m : Registry} {k : String}
    (h : k ∈ mapKeys m) : m ≠ [] := by
  intro he
  subst he
  simp [mapKeys] at h

/-- Helper: Map.set preserves the uniformity invariant when the inserted
descriptor is uniform. -/
theorem registryUniform_mapSet {m : Registry} {k : String} {v : ProviderModel}
    (hm : RegistryUniform m) (hid : v.id = k)
    (hcap : v.capabilities = [MediaCapability.TEXT_TO_TEXT]) :
    RegistryUniform (mapSet m k v) := by
  intro p hp
  unfold mapSet at hp
  by_cases h : m.any (fun q => q.1 = k) = true
  · rw [if_pos h] at hp
    obtain ⟨q, hq, hqe⟩ := List.mem_map.mp hp
    by_cases hqk : q.1 = k
    · rw [if_pos hqk] at hqe
      subst hqe
      exact ⟨hid, hcap⟩
    · rw [if_neg hqk] at hqe
      subst hqe
      exact hm q hq
  · rw [if_neg h] at hp
    rcases List.mem_append.mp hp with h2 | h2
    · exact hm p h2
    · rcases List.mem_singleton.mp h2 with rfl
      exact ⟨hid, hcap⟩

/-- Helper: folding Map.set over uniform descriptors preserves the
uniformity invariant. -/
theorem registryUniform_foldl {α : Type} (key : α → String) (val : α → ProviderModel)
    (l : List α) (acc : Registry) (hacc : RegistryUniform acc)
    (hval : ∀ x, (val x).id = key x
      ∧ (val x).capabilities = [MediaCapability.TEXT_TO_TEXT]) :
    RegistryUniform (l.foldl (fun a x => mapSet a (key x) (val x)) acc) := by
  induction l generalizing acc with
  | nil => exact hacc
  | cons x rest ih =>
    exact ih _ (registryUniform_mapSet hacc (hval x).1 (hval x).2)

/-- Helper: a key present in the key list is bound to a stored value. -/
theorem mapGet_of_mem_keys (m : Registry) (id : String) (h : id ∈ mapKeys m) :
    ∃ p, p ∈ m ∧ p.1 = id ∧ mapGet m id = some p.2 := by
  induction m with
  | nil => simp [mapKeys] at h
  | cons q rest ih =>
    by_cases hq : q.1 = id
    · refine ⟨q, List.mem_cons_self q rest, hq, ?_⟩
      unfold mapGet
      rw [List.find?_cons_of_pos _ (by simp [hq])]
      rfl
    · have h2 : id ∈ mapKeys rest := by
        rcases List.mem_cons.mp h with h3 | h3
        · exact absurd h3.symm hq
        · exact h3
      obtain ⟨p, hp, hpk, hg⟩ := ih h2
      refine ⟨p, List.mem_cons_of_mem q hp, hpk, ?_⟩
      unfold mapGet at hg ⊢
      rw [List.find?_cons_of_neg _ (by simp [hq])]
      exact hg

/-- Helper: under the uniformity invariant the supported-model listing is
exactly the key list of the registry. -/
theorem getSupported_eq_keys (st : AnthropicProviderState)
    (h : RegistryUniform st.discoveredModels) :
    getSupportedTextToTextModels st = mapKeys st.discoveredModels := by
  unfold getSupportedTextToTextModels
  apply List.filter_eq_self.mpr
  intro id hid
  obtain ⟨p, hp, hpk, hg⟩ := mapGet_of_mem_keys _ id hid
  rw [hg]
  have hcap := (h p hp).2
  show p.2.capabilities.contains MediaCapability.TEXT_TO_TEXT = true
  rw [hcap]
  decide

/-- C1: for every model identifier not present in the registry
(discoveredModels), creating a generation handle via createTextToTextModel
(and hence getModel) on a configured provider throws the unsupported-model
error, and the call issues no outbound HTTP request: the rejection happens
before any transport call. -/
theorem C1_unsupported_model_rejected_before_network
    (st : AnthropicProviderState) (modelId : String)
    (hconf : st.hasApiClient = true)
    (hmem : mapHas st.discoveredModels modelId = false) :
    (createTextToTextModel st modelId).result
        = Except.error (ProviderError.unsupportedModel modelId)
    ∧ (createTextToTextModel st modelId).networkRequests = 0
    ∧ (getModel st modelId).result
        = Except.error (ProviderError.unsupportedModel modelId)
    ∧ (getModel st modelId).networkRequests = 0 := by
  have hsup : supportsTextToTextModel st modelId = false := hmem
  simp [createTextToTextModel, getModel, hconf, hsup]

/-- C1 witness: the configured synchronously seeded provider rejects a
concrete absent id with the unsupported-model error and zero requests. -/
theorem C1_unsupported_model_rejected_before_network_witness :
    ((constructorKnownModels true).hasApiClient = true
      ∧ mapHas (constructorKnownModels true).discoveredModels "mystery-model" = false)
    ∧ (createTextToTextModel (constructorKnownModels true) "mystery-model").result
        = Except.error (ProviderError.unsupportedModel "mystery-model")
    ∧ (createTextToTextModel (constructorKnownModels true) "mystery-model").networkRequests = 0
    ∧ (getModel (constructorKnownModels true) "mystery-model").result
        = Except.error (ProviderError.unsupportedModel "mystery-model")
    ∧ (getModel (constructorKnownModels true) "mystery-model").networkRequests = 0 :=
  ⟨⟨rfl, by decide⟩,
   C1_unsupported_model_rejected_before_network (constructorKnownModels true)
     "mystery-model" rfl (by decide)⟩

/-- C8: with no transport configured, createTextToTextModel and getModel
each fail with their configuration errors for every model id and every
registry content, so the configuration check precedes the
unsupported-model check. -/
theorem C8_configuration_error_precedes_model_check
    (st : AnthropicProviderState) (modelId : String)
    (hconf : st.hasApiClient = false) :
    (createTextToTextModel st modelId).result
        = Except.error ProviderError.notConfigured
    ∧ (getModel st modelId).result
        = Except.error ProviderError.notConfiguredGetModel
    ∧ (createTextToTextModel st modelId).networkRequests = 0
    ∧ (getModel st modelId).networkRequests = 0 := by
  simp [createTextToTextModel, getModel, hconf]

/-- C8 witness: the unconfigured provider throws the configuration errors
even for an id that is present in its registry. -/
theorem C8_configuration_error_precedes_model_check_witness :
    (unconfiguredSeededExample.hasApiClient = false
      ∧ mapHas unconfiguredSeededExample.discoveredModels
          "claude-3-5-sonnet-latest" = true)
    ∧ (createTextToTextModel unconfiguredSeededExample
        "claude-3-5-sonnet-latest").result
        = Except.error ProviderError.notConfigured
    ∧ (getModel unconfiguredSeededExample "claude-3-5-sonnet-latest").result
        = Except.error ProviderError.notConfiguredGetModel := by
  refine ⟨⟨rfl, by decide⟩, ?_, ?_⟩
  · exact (C8_configuration_error_precedes_model_check unconfiguredSeededExample
      "claude-3-5-sonnet-latest" rfl).1
  · exact (C8_configuration_error_precedes_model_check unconfiguredSeededExample
      "claude-3-5-sonnet-latest" rfl).2.1

/-- C10: an empty systemPrompt string adds no system-role message; the
message list is the single user-role message, the same as with an absent
system prompt. -/
theorem C10_empty_system_prompt_ignored (prompt : String) (t tp : Option Rat)
    (mt : Option Nat) :
    generateTextMessages prompt
        { temperature := t, maxTokens := mt, topP := tp, systemPrompt := some "" }
      = [⟨Role.user, prompt⟩]
    ∧ generateTextMessages prompt
        { temperature := t, maxTokens := mt, topP := tp, systemPrompt := none }
      = [⟨Role.user, prompt⟩] :=
  ⟨rfl, rfl⟩

/-- C6: the message list built by generateText is an optional leading
system-role message holding a given non-empty system prompt, followed by
exactly one user-role message holding the prompt; in particular prompt
hello with system prompt S yields exactly [system S, user hello]. -/
theorem C6_message_list_order (prompt s : String) (options : GenerateOptions) :
    (options.systemPrompt = some s → s ≠ "" →
      generateTextMessages prompt options
        = [⟨Role.system, s⟩, ⟨Role.user, prompt⟩])
    ∧ (options.systemPrompt = none →
      generateTextMessages prompt options = [⟨Role.user, prompt⟩])
    ∧ generateTextMessages "hello"
        { temperature := none, maxTokens := none, topP := none,
          systemPrompt := some "S" }
      = [⟨Role.system, "S"⟩, ⟨Role.user, "hello"⟩] := by
  refine ⟨?_, ?_, rfl⟩
  · intro h hne
    simp [generateTextMessages, h, hne]
  · intro h
    simp [generateTextMessages, h]

/-- C6 witness: the concrete instance of the claim, with the hypotheses
discharged at system prompt S. -/
theorem C6_message_list_order_witness :
    (({ temperature := none, maxTokens := none, topP := none,
        systemPrompt := some "S" } : GenerateOptions).systemPrompt = some "S"
      ∧ ("S" : String) ≠ "")
    ∧ generateTextMessages "hello"
        { temperature := none, maxTokens := none, topP := none,
          systemPrompt := some "S" }
      = [⟨Role.system, "S"⟩, ⟨Role.user, "hello"⟩] := by
  refine ⟨⟨rfl, by decide⟩, ?_⟩
  exact (C6_message_list_order "hello" "S"
    { temperature := none, maxTokens := none, topP := none,
      systemPrompt := some "S" }).1 rfl (by decide)

/-- C5: generateText fails with the empty-response error when the
response body or its content array is absent, or the array has zero
segments (never returning an empty string there), and otherwise returns
the concatenation of all segment texts, in response order, with no
separator. -/
theorem C5_empty_content_error_and_concatenation
    (d : AnthropicChatResponse) (parts : List ContentPart) :
    generateTextExtract none = Except.error AnthropicClientError.emptyResponse
    ∧ (d.content = none → generateTextExtract (some d)
        = Except.error AnthropicClientError.emptyResponse)
    ∧ (d.content = some [] → generateTextExtract (some d)
        = Except.error AnthropicClientError.emptyResponse)
    ∧ (d.content = some parts → parts ≠ [] →
        generateTextExtract (some d)
          = Except.ok (String.join (parts.map (fun p => p.text)))) := by
  refine ⟨rfl, ?_, ?_, ?_⟩
  · intro h
    simp [generateTextExtract, h]
  · intro h
    simp [generateTextExtract, h]
  · intro h hne
    have hlen : ¬ parts.length = 0 := by
      simpa [List.length_eq_zero] using hne
    simp [generateTextExtract, h, hlen]

/-- C5 witness: the mocked two-segment response yields abcd, with the
hypotheses discharged at that concrete response. -/
theorem C5_empty_content_error_and_concatenation_witness :
    abcdResponseExample.content
        = some [{ type := "text", text := "ab" }, { type := "text", text := "cd" }]
    ∧ ([{ type := "text", text := "ab" }, { type := "text", text := "cd" }]
        : List ContentPart) ≠ []
    ∧ generateTextExtract (some abcdResponseExample) = Except.ok "abcd" := by
  refine ⟨rfl, by decide, ?_⟩
  have h := (C5_empty_content_error_and_concatenation abcdResponseExample
    [{ type := "text", text := "ab" }, { type := "text", text := "cd" }]).2.2.2
    rfl (by decide)
  exact h.trans (by rfl)

/-- C4: the serialized outbound request of generateText always carries
model, max_tokens (the maxTokens option when supplied, 1024 otherwise)
and messages; temperature and top_p are present with the option value
exactly when the option is set and absent otherwise; stop_sequences is
never present, the options record of generateText having no
stop-sequences field to pass through. -/
theorem C4_request_field_passthrough (model prompt : String)
    (options : GenerateOptions) :
    lookupField (generateTextWireBody model prompt options) "model"
        = some (JsonValue.str model)
    ∧ lookupField (generateTextWireBody model prompt options) "max_tokens"
        = some (JsonValue.num
            (((match options.maxTokens with | some n => n | none => 1024) : Nat) : Rat))
    ∧ lookupField (generateTextWireBody model prompt options) "messages"
        = some (JsonValue.arr
            ((generateTextMessages prompt options).map serializeMessage))
    ∧ lookupField (generateTextWireBody model prompt options) "temperature"
        = Option.map JsonValue.num options.temperature
    ∧ lookupField (generateTextWireBody model prompt options) "top_p"
        = Option.map JsonValue.num options.topP
    ∧ lookupField (generateTextWireBody model prompt options) "stop_sequences"
        = none := by
  rcases options with ⟨t, mt, tp, sp⟩
  cases t <;> cases mt <;> cases tp <;>
    exact ⟨rfl, rfl, rfl, rfl, rfl, rfl⟩

/-- C3 counterexample: right after the background-discovery constructor
runs with an API key present and before any network response has arrived,
the registry is empty, so the known id is not supported. -/
theorem C3_background_discovery_constructor_empty :
    supportsTextToTextModel (constructorBackgroundDiscovery true)
        "claude-3-5-sonnet-latest" = false
    ∧ (constructorBackgroundDiscovery true).discoveredModels = [] :=
  ⟨rfl, rfl⟩

/-- C3 (amended): the synchronous-seeding provider version satisfies the
claim: right after its constructor runs with an API key present and with
no network access, the registry is non-empty and
claude-3-5-sonnet-latest is supported.  The background-discovery version
instead leaves the registry empty until discovery completes. -/
theorem C3_known_model_seeding_synchronous :
    supportsTextToTextModel (constructorKnownModels true)
        "claude-3-5-sonnet-latest" = true
    ∧ (constructorKnownModels true).discoveredModels ≠ [] := by
  constructor
  · decide
  · decide

/-- C7: discoverModels never raises (it is a total function on listing
outcomes) and on a configured provider every outcome leaves the registry
non-empty; a thrown listing error, an absent data array or an empty
listing each populate the fallback list, whose ids are then all
present. -/
theorem C7_discovery_never_raises_and_falls_back
    (st : AnthropicProviderState) (listing : ListingOutcome)
    (hconf : st.hasApiClient = true) :
    (discoverModels st listing).discoveredModels ≠ []
    ∧ (∀ e, (discoverModels st (Except.error e)).discoveredModels
        = initializeFallbackModels st.discoveredModels)
    ∧ (discoverModels st (Except.ok none)).discoveredModels
        = initializeFallbackModels st.discoveredModels
    ∧ (discoverModels st (Except.ok (some []))).discoveredModels
        = initializeFallbackModels st.discoveredModels
    ∧ (∀ id ∈ fallbackModels,
        mapHas (initializeFallbackModels st.discoveredModels) id = true) := by
  have hfb : ∀ id ∈ fallbackModels,
      mapHas (initializeFallbackModels st.discoveredModels) id = true := by
    intro id hid
    exact (mapHas_iff_mem _ _).mpr
      ((mem_mapKeys_initializeFallbackModels _ _).mpr (Or.inr hid))
  have hfbne : initializeFallbackModels st.discoveredModels ≠ [] := by
    apply registry_ne_nil_of_mem_keys
    exact (mem_mapKeys_initializeFallbackModels _ _).mpr
      (Or.inr (by decide : "claude-3-5-sonnet-latest" ∈ fallbackModels))
  refine ⟨?_, ?_, ?_, ?_, hfb⟩
  · cases listing with
    | error e => simpa [discoverModels, hconf] using hfbne
    | ok mo =>
      cases mo with
      | none => simpa [discoverModels, hconf] using hfbne
      | some models =>
        cases models with
        | nil => simpa [discoverModels, hconf] using hfbne
        | cons m rest =>
          have hk : m.id ∈ mapKeys ((m :: rest).foldl
              (fun a x => mapSet a x.id (discoveredProviderModel x))
              st.discoveredModels) := by
            refine (mem_mapKeys_discoveryFold _ _ _).mpr (Or.inr ?_)
            simp
          have hne := registry_ne_nil_of_mem_keys hk
          simpa [discoverModels, hconf] using hne
  · intro e
    simp [discoverModels, hconf]
  · simp [discoverModels, hconf]
  · simp [discoverModels, hconf]

/-- C7 witness: on the concrete configured state a thrown listing error
is swallowed into the fallback population and the registry stays
non-empty. -/
theorem C7_discovery_never_raises_and_falls_back_witness :
    staleStateExample.hasApiClient = true
    ∧ (discoverModels staleStateExample (Except.error "boom")).discoveredModels ≠ []
    ∧ (discoverModels staleStateExample (Except.error "boom")).discoveredModels
        = initializeFallbackModels staleStateExample.discoveredModels := by
  refine ⟨rfl, ?_, ?_⟩
  · exact (C7_discovery_never_raises_and_falls_back staleStateExample
      (Except.error "boom") rfl).1
  · exact (C7_discovery_never_raises_and_falls_back staleStateExample
      (Except.error "boom") rfl).2.1 "boom"

/-- C2 counterexample: discovery on a configured provider whose registry
already holds claude-old, given a non-empty listing containing only
m-new, keeps claude-old in the registry, so the key set after discovery
is not the discovered id set: no wholesale replacement happens. -/
theorem C2_discovery_keeps_stale_entry :
    discoveryListingExample ≠ []
    ∧ mapHas (discoverModels staleStateExample
        (Except.ok (some discoveryListingExample))).discoveredModels
        "claude-old" = true
    ∧ "claude-old" ∉ discoveryListingExample.map AnthropicModel.id
    ∧ mapKeys (discoverModels staleStateExample
        (Except.ok (some discoveryListingExample))).discoveredModels
      = ["claude-old", "m-new"] := by
  refine ⟨by decide, by decide, by decide, by decide⟩

/-- C2 (amended): discoverModels merges into the registry with Map.set
rather than replacing it: with a non-empty listing the reachable keys
after discovery are exactly the prior keys together with the discovered
ids, and with an empty listing, an absent data array or a thrown listing
error they are exactly the prior keys together with the fallback set.
In particular from an empty prior registry the key set is exactly the
discovered id set, resp. exactly the fallback set. -/
theorem C2_discovery_merges_registry
    (st : AnthropicProviderState) (models : List AnthropicModel) (e : String)
    (hconf : st.hasApiClient = true) (hne : models ≠ []) :
    (∀ k, mapHas (discoverModels st (Except.ok (some models))).discoveredModels k
          = true
        ↔ mapHas st.discoveredModels k = true ∨ k ∈ models.map AnthropicModel.id)
    ∧ (∀ k, mapHas (discoverModels st (Except.ok (some []))).discoveredModels k
          = true
        ↔ mapHas st.discoveredModels k = true ∨ k ∈ fallbackModels)
    ∧ (∀ k, mapHas (discoverModels st (Except.error e)).discoveredModels k = true
        ↔ mapHas st.discoveredModels k = true ∨ k ∈ fallbackModels)
    ∧ (∀ k, mapHas (discoverModels st (Except.ok none)).discoveredModels k = true
        ↔ mapHas st.discoveredModels k = true ∨ k ∈ fallbackModels) := by
  refine ⟨?_, ?_, ?_, ?_⟩
  · intro k
    rcases models with _ | ⟨m, rest⟩
    · exact absurd rfl hne
    · have hR : (discoverModels st
          (Except.ok (some (m :: rest)))).discoveredModels
          = (m :: rest).foldl
              (fun a x => mapSet a x.id (discoveredProviderModel x))
              st.discoveredModels := by
        simp [discoverModels, hconf]
      rw [hR, mapHas_iff_mem, mapHas_iff_mem, mem_mapKeys_discoveryFold]
  · intro k
    have hR : (discoverModels st (Except.ok (some []))).discoveredModels
        = initializeFallbackModels st.discoveredModels := by
      simp [discoverModels, hconf]
    rw [hR, mapHas_iff_mem, mapHas_iff_mem, mem_mapKeys_initializeFallbackModels]
  · intro k
    have hR : (discoverModels st (Except.error e)).discoveredModels
        = initializeFallbackModels st.discoveredModels := by
      simp [discoverModels, hconf]
    rw [hR, mapHas_iff_mem, mapHas_iff_mem, mem_mapKeys_initializeFallbackModels]
  · intro k
    have hR : (discoverModels st (Except.ok none)).discoveredModels
        = initializeFallbackModels st.discoveredModels := by
      simp [discoverModels, hconf]
    rw [hR, mapHas_iff_mem, mapHas_iff_mem, mem_mapKeys_initializeFallbackModels]

/-- C2 witness: the amended merge semantics evaluated at the concrete
stale state and one-element listing. -/
theorem C2_discovery_merges_registry_witness :
    (staleStateExample.hasApiClient = true ∧ discoveryListingExample ≠ [])
    ∧ (mapHas (discoverModels staleStateExample
          (Except.ok (some discoveryListingExample))).discoveredModels "m-new"
          = true
        ↔ mapHas staleStateExample.discoveredModels "m-new" = true
          ∨ "m-new" ∈ discoveryListingExample.map AnthropicModel.id) := by
  refine ⟨⟨rfl, by decide⟩, ?_⟩
  exact (C2_discovery_merges_registry staleStateExample discoveryListingExample
    "boom" rfl (by decide)).1 "m-new"

/-- C9: every entry stored by the three population routines sits under
the id of its descriptor with capability list exactly TEXT_TO_TEXT, so
the supported-model listing equals the full registry key set and the
TEXT_TO_TEXT capability listing returns all stored descriptors. -/
theorem C9_registry_uniformity
    (st : AnthropicProviderState) (listing : ListingOutcome)
    (h : RegistryUniform st.discoveredModels) :
    RegistryUniform (initializeKnownClaudeModels st.discoveredModels)
    ∧ RegistryUniform (initializeFallbackModels st.discoveredModels)
    ∧ RegistryUniform (discoverModels st listing).discoveredModels
    ∧ getSupportedTextToTextModels st = mapKeys st.discoveredModels
    ∧ getModelsForCapability st MediaCapability.TEXT_TO_TEXT
        = mapValues st.discoveredModels := by
  have hfb : RegistryUniform (initializeFallbackModels st.discoveredModels) :=
    registryUniform_foldl (fun i => i) fallbackProviderModel fallbackModels _ h
      (fun _ => ⟨rfl, rfl⟩)
  refine ⟨?_, hfb, ?_, getSupported_eq_keys st h, rfl⟩
  · exact registryUniform_foldl (fun i => i) knownProviderModel knownModels _ h
      (fun _ => ⟨rfl, rfl⟩)
  · by_cases hc : st.hasApiClient = true
    · cases listing with
      | error e =>
        have he : (discoverModels st (Except.error e)).discoveredModels
            = initializeFallbackModels st.discoveredModels := by
          simp [discoverModels, hc]
        rw [he]
        exact hfb
      | ok mo =>
        cases mo with
        | none =>
          have he : (discoverModels st (Except.ok none)).discoveredModels
              = initializeFallbackModels st.discoveredModels := by
            simp [discoverModels, hc]
          rw [he]
          exact hfb
        | some models =>
          by_cases hm : models.length = 0
          · have he : (discoverModels st
                (Except.ok (some models))).discoveredModels
                = initializeFallbackModels st.discoveredModels := by
              simp [discoverModels, hc, hm]
            rw [he]
            exact hfb
          · have he : (discoverModels st
                (Except.ok (some models))).discoveredModels
                = models.foldl
                    (fun a x => mapSet a x.id (discoveredProviderModel x))
                    st.discoveredModels := by
              simp [discoverModels, hc, hm]
            rw [he]
            exact registryUniform_foldl AnthropicModel.id discoveredProviderModel
              models _ h (fun _ => ⟨rfl, rfl⟩)
    · have hc2 : st.hasApiClient = false := by
        cases hb : st.hasApiClient
        · rfl
        · exact absurd hb hc
      have he : discoverModels st listing = st := by
        simp [discoverModels, hc2]
      rw [he]
      exact h

/-- C9 witness: the uniformity hypothesis discharged at the concrete
stale state, and two of its consequences there. -/
theorem C9_registry_uniformity_witness :
    RegistryUniform staleStateExample.discoveredModels
    ∧ getSupportedTextToTextModels staleStateExample
        = mapKeys staleStateExample.discoveredModels
    ∧ RegistryUniform (discoverModels staleStateExample
        (Except.ok (some discoveryListingExample))).discoveredModels := by
  have hu : RegistryUniform staleStateExample.discoveredModels := by
    unfold RegistryUniform
    decide
  refine ⟨hu, ?_, ?_⟩
  · exact (C9_registry_uniformity staleStateExample
      (Except.ok (some discoveryListingExample)) hu).2.2.2.1
  · exact (C9_registry_uniformity staleStateExample
      (Except.ok (some discoveryListingExample)) hu).2.2.1

